import Mathlib

/-!
Verification development for `src/server.py` of poshguard/accelocron.

The script's two algorithmic components are shallowly embedded here:

* the Page Counter: `binary_page_search` (fallback bisection over page
  indices) and `total_pages` (the primary `(count + 99) // 100` path);
* the Profile Reshaper: the *active* `transform_data` (the second
  Python definition, which shadows the first), modelled as `transform_data`
  over a `Table`, with its file side effect in `transform_data_run`;
* the per-column date conversion `convert_columns_to_datetime`;
* the top-level control flow of the script (token acquisition, the
  catch-all `except Exception` handler and the resulting exit code),
  modelled as `script_exit_code`.

HTTP, CSV I/O and the database driver are external collaborators: a probe
of the remote source is a function `Nat → Resp` giving the response for
each page index, and a CSV file on disk is a `Table` value.
-/

/-- A record returned by the API: a mapping of field names to values
(`response.json()["response"]` is a list of such records). -/
abbrev Record : Type := List (String × String)

/-- An HTTP response as `binary_page_search` observes it: the status code
and the record list under the `"response"` key of the JSON body. -/
structure Resp where
  status : Nat
  response : List Record
deriving DecidableEq

/-- The branch condition of `binary_page_search`, from
`if response.status_code == 200 and not response.json()["response"]`
(Python truthiness of a list: empty list is falsy):
the upper bound moves down exactly when the fetch succeeded with status 200
and returned an empty record set. -/
def goesDown (r : Resp) : Bool :=
  r.status == 200 && r.response.isEmpty

/-- The `while min_page < max_page` loop of `binary_page_search`
(src/server.py lines 107-120): probe the midpoint `(min_page + max_page) // 2`;
if the fetch succeeds with an empty record set, `max_page = mid_page`,
otherwise `min_page = mid_page + 1`; return `min_page` when the bounds meet. -/
def binary_page_search_loop (fetch : Nat → Resp) (min_page max_page : Nat) : Nat :=
  if h : min_page < max_page then
    if goesDown (fetch ((min_page + max_page) / 2)) then
      binary_page_search_loop fetch min_page ((min_page + max_page) / 2)
    else
      binary_page_search_loop fetch ((min_page + max_page) / 2 + 1) max_page
  else
    min_page
termination_by max_page - min_page
decreasing_by
  · omega
  · omega

/-- The function `binary_page_search` (src/server.py lines 104-120): bisection over page
indices starting from `min_page, max_page = 0, 2 ** 20`. -/
def binary_page_search (fetch : Nat → Resp) : Nat :=
  binary_page_search_loop fetch 0 (2 ^ 20)

/-- The sequence of page indices probed by the loop of `binary_page_search`,
in the order the requests are issued. -/
def bps_probes_loop (fetch : Nat → Resp) (min_page max_page : Nat) : List Nat :=
  if h : min_page < max_page then
    ((min_page + max_page) / 2) ::
      (if goesDown (fetch ((min_page + max_page) / 2)) then
        bps_probes_loop fetch min_page ((min_page + max_page) / 2)
      else
        bps_probes_loop fetch ((min_page + max_page) / 2 + 1) max_page)
  else
    []
termination_by max_page - min_page
decreasing_by
  · omega
  · omega

/-- The sequence of page indices probed by `binary_page_search`. -/
def bps_probes (fetch : Nat → Resp) : List Nat :=
  bps_probes_loop fetch 0 (2 ^ 20)

/-- The `(data_count + 99) // 100` page computation of the primary path
(src/server.py line 154): total pages at page size 100, rounding up. -/
def total_pages (data_count : Nat) : Nat :=
  (data_count + 99) / 100

/-- A long-format Profile Row: one `(link_id, field_name, value)` triple of
the merged profile CSV. -/
structure LongRow where
  link_id : String
  field_name : String
  value : String
deriving DecidableEq

/-- A CSV file as a rectangular table: a header of column names and the
data rows (each row lists the cell under each header entry in order). -/
structure Table where
  header : List String
  rows : List (List String)
deriving DecidableEq

/-- The cell of a row under a named column: pair the header with the row and
take the value under the first matching column name. -/
def cellOf (header row : List String) (c : String) : Option String :=
  ((header.zip row).find? (fun p => p.1 == c)).map (·.2)

/-- Read one table row as a Profile Row, via the `link_id`, `field_name` and
`value` columns. -/
def longRowOf (header : List String) (row : List String) : Option LongRow :=
  match cellOf header row "link_id", cellOf header row "field_name",
      cellOf header row "value" with
  | some a, some b, some c => some ⟨a, b, c⟩
  | _, _, _ => none

/-- The cell of the pivot at `(id, fn)`: `aggfunc='first'` keeps the value of
the first input row with that `link_id` and `field_name`. -/
def pivotCell (rows : List LongRow) (id fn : String) : Option String :=
  (rows.find? (fun r => r.link_id == id && r.field_name == fn)).map (·.value)

/-- The column labels the pivot produces: the distinct `field_name` values
present in the input. -/
def pivotFieldNames (rows : List LongRow) : List String :=
  (rows.map (·.field_name)).dedup

/-- The row labels the pivot produces: the distinct `link_id` values present
in the input. -/
def pivotIds (rows : List LongRow) : List String :=
  (rows.map (·.link_id)).dedup

/-- The pivot `pd.pivot_table(..., index=['link_id'], columns='field_name',
values='value', aggfunc='first').reset_index()` (src/server.py lines 263-264):
one row per distinct `link_id`, one column per distinct `field_name`, the cell
being the first value seen for the pair (an absent pair is an empty cell).
pandas additionally sorts the row and column labels; this model lists them in
order of first appearance — the claims below concern only membership, counts
and cell contents, on which the two orderings agree. -/
def pivotTable (rows : List LongRow) : Table :=
  ⟨"link_id" :: pivotFieldNames rows,
   (pivotIds rows).map (fun id =>
     id :: (pivotFieldNames rows).map (fun fn => (pivotCell rows id fn).getD ""))⟩

/-- The attribute allow-list of the first (shadowed) `transform_data`
(src/server.py line 134). -/
def desired_columns : List String :=
  ["Partner", "Office_Responsible", "Department"]

/-- The `desired_columns` argument the call site passes to the active
`transform_data` (src/server.py line 278): the three long-format column
names, not an attribute allow-list. -/
def desired_columns_companies : List String :=
  ["link_id", "field_name", "value"]

/-- The active `transform_data` (src/server.py lines 241-273, the second
definition, which shadows the allow-list version at lines 123-137): select
the `link_id`, `field_name`, `value` columns of the file and pivot. Any
failure — in particular a `KeyError` when one of the three columns is missing
from the file — is caught by the function's catch-all handler, which returns
`None`. -/
def transform_data (file : Table) : Option Table :=
  if "link_id" ∈ file.header ∧ "field_name" ∈ file.header ∧ "value" ∈ file.header then
    some (pivotTable (file.rows.filterMap (longRowOf file.header)))
  else
    none

/-- One invocation of the active `transform_data` together with its file
effect: on success the pivot is written back over the input file
(`pivot_table.to_csv(data_file, ...)`, src/server.py line 267) and returned;
on failure nothing has been written and the file is unchanged. Returns
(returned value, file contents afterwards). -/
def transform_data_run (file : Table) : Option Table × Table :=
  match transform_data file with
  | some p => (some p, p)
  | none => (none, file)

/-- A canonical merged long-format CSV file holding the given Profile Rows. -/
def longTable (rows : List LongRow) : Table :=
  ⟨["link_id", "field_name", "value"],
   rows.map (fun r => [r.link_id, r.field_name, r.value])⟩

/-- A cell value of a merged CSV column as pandas types it: a numeric value,
or a non-numeric string. -/
inductive Val where
  | num (n : Int)
  | str (s : String)
deriving DecidableEq

/-- The numeric reading of a cell, when it has one. -/
def valNum? : Val → Option Int
  | .num n => some n
  | .str _ => none

/-- Whether a character list begins with `date`. -/
def startsWithDate : List Char → Bool
  | 'd' :: 'a' :: 't' :: 'e' :: _ => true
  | _ => false

/-- Whether a character list contains `date`, modelling Python's
`'date' in column.lower()` substring test. -/
def containsDate : List Char → Bool
  | [] => false
  | c :: rest => startsWithDate (c :: rest) || containsDate rest

/-- The lowercase image of a character list, modelling Python's
`column.lower()` (`String.toLower` itself is not used since its
implementation does not reduce in the kernel). -/
def lowerList (l : List Char) : List Char :=
  l.map Char.toLower

/-- A named dataframe column. -/
structure NamedCol where
  name : String
  cells : List Val
deriving DecidableEq

/-- Proleptic Gregorian civil date from a count of days since 1970-01-01
(the day part of a Unix timestamp), as `(year, month, day)`; the standard
era-based calculation used by civil-calendar conversions. -/
def civilFromDays (z0 : Int) : Int × Nat × Nat :=
  let z := z0 + 719468
  let era : Int := Int.fdiv z 146097
  let doe : Nat := (z - era * 146097).toNat
  let yoe : Nat := (doe - doe / 1460 + doe / 36524 - doe / 146096) / 365
  let doy : Nat := doe - (365 * yoe + yoe / 4 - yoe / 100)
  let mp : Nat := (5 * doy + 2) / 153
  let d : Nat := doy - (153 * mp + 2) / 5 + 1
  let m : Nat := if mp < 10 then mp + 3 else mp - 9
  let y : Int := era * 400 + (yoe : Int) + (if m ≤ 2 then 1 else 0)
  (y, m, d)

/-- Zero-pad a month or day to two digits, as `strftime('%m'/'%d')` does. -/
def pad2 (n : Nat) : String :=
  if n < 10 then "0" ++ toString n else toString n

/-- Zero-pad a year to four digits, as `strftime('%Y')` does. -/
def pad4 (y : Int) : String :=
  if y < 0 then "-" ++ toString (-y).toNat
  else String.mk (List.replicate (4 - (toString y.toNat).length) '0') ++ toString y.toNat

/-- The effect of `pd.to_datetime(x, unit='s')` followed by `strftime('%Y-%m-%d')` on one
Unix-epoch-seconds value: the `YYYY-MM-DD` string of the day the timestamp
falls in. -/
def epochToDateStr (n : Int) : String :=
  match civilFromDays (Int.fdiv n 86400) with
  | (y, m, d) => pad4 y ++ "-" ++ pad2 m ++ "-" ++ pad2 d

/-- The numeric readings of a whole column: `some` of all the cell values
when every cell is numeric, `none` as soon as one cell is not
(`pd.to_datetime(..., unit='s')` converts the whole column or raises). -/
def colNums? : List Val → Option (List Int)
  | [] => some []
  | v :: t =>
    match valNum? v, colNums? t with
    | some n, some ns => some (n :: ns)
    | _, _ => none

/-- The conversion of one `date`-named column (src/server.py lines 86-92):
`pd.to_datetime(data[column], unit='s')` succeeds only when every cell is
numeric, in which case the whole column becomes `YYYY-MM-DD` strings; any
failure is caught (and printed), leaving the column as it was. -/
def convertDateCol (cells : List Val) : List Val :=
  match colNums? cells with
  | some ns => ns.map (fun n => Val.str (epochToDateStr n))
  | none => cells

/-- The per-column behaviour of `convert_columns_to_datetime`: columns whose
lowercased name contains `date` are converted (or left alone on failure);
all other columns are untouched. -/
def convertNamedCol (c : NamedCol) : NamedCol :=
  if containsDate (lowerList c.name.toList) then ⟨c.name, convertDateCol c.cells⟩ else c

/-- The function `convert_columns_to_datetime` (src/server.py lines 83-92): apply the
per-column conversion to every column of the dataframe. -/
def convert_columns_to_datetime (cols : List NamedCol) : List NamedCol :=
  cols.map convertNamedCol

/-- The external inputs that drive the script's top-level control flow:
the token endpoint's status code, the `access_token` field of its JSON body
(absent, or a possibly empty string), and whether any step of the main body
raises an exception that reaches the top-level handler. -/
structure RunEnv where
  token_status : Nat
  access_token : Option String
  body_raises : Bool
deriving DecidableEq

/-- Python truthiness of `not access_token`: the token is falsy when absent
or the empty string. -/
def falsyStr : Option String → Bool
  | none => true
  | some s => s == ""

/-- Token acquisition succeeded: status 200 and a truthy `access_token`
(src/server.py lines 67-76). -/
def token_acquired (e : RunEnv) : Bool :=
  e.token_status == 200 && !falsyStr e.access_token

/-- The run halts at token acquisition, before any page is fetched. -/
def script_halts_at_token (e : RunEnv) : Bool :=
  !token_acquired e

/-- The exit status of the script (src/server.py lines 67-76 and 346-348).
On a non-200 token response or a falsy token the script calls `exit()`:
this raises `SystemExit(None)`, which `except Exception` does not catch,
and the process exits with status 0. An exception raised later in the body
reaches the top-level handler, which calls `sys.exit(1)`. Otherwise the
`try` block completes and the process exits with status 0. -/
def script_exit_code (e : RunEnv) : Nat :=
  if e.token_status != 200 then 0
  else if falsyStr e.access_token then 0
  else if e.body_raises then 1
  else 0

/-- An uncaught error: an exception propagating out of the main body into
the top-level `except Exception` handler (token-acquisition failure is a
handled, deliberate halt, not an uncaught error). -/
def uncaught_error (e : RunEnv) : Bool :=
  token_acquired e && e.body_raises

/-- A simulated remote source that is empty exactly from page `K` on:
every probe answers 200; pages below `K` carry one record, pages from `K`
on are empty. -/
def boundaryFetch (K : Nat) : Nat → Resp := fun i =>
  if i < K then ⟨200, [[("id", "x")]]⟩ else ⟨200, []⟩

/-- A simulated remote source that is empty at page 0 and from page 524288
on, and non-empty in between: a non-monotone response sequence. -/
def mixedFetch : Nat → Resp := fun i =>
  if i == 0 || 524288 ≤ i then ⟨200, []⟩ else ⟨200, [[("k", "v")]]⟩

/-- A simulated remote source whose every probe fails with status 500 and
an empty body. -/
def failFetch : Nat → Resp := fun _ =>
  ⟨500, []⟩

/-- A one-row profile input whose attribute name `Foo` is outside the
allow-list of the shadowed `transform_data`. -/
def fooRows : List LongRow :=
  [⟨"1", "Foo", "X"⟩]

theorem goesDown_iff (r : Resp) :
    goesDown r = true ↔ r.status = 200 ∧ r.response = [] := by
  simp [goesDown, List.isEmpty_iff]

theorem bps_loop_boundary_aux (n : Nat) :
    ∀ (fetch : Nat → Resp) (K lo hi : Nat), hi - lo ≤ n → lo ≤ K → K ≤ hi →
    (∀ i, lo ≤ i → i < hi → (goesDown (fetch i) = true ↔ K ≤ i)) →
    binary_page_search_loop fetch lo hi = K := by
  induction n with
  | zero =>
    intro fetch K lo hi hn h1 h2 h3
    rw [binary_page_search_loop, dif_neg (by omega)]
    omega
  | succ n ih =>
    intro fetch K lo hi hn h1 h2 h3
    by_cases h : lo < hi
    · rw [binary_page_search_loop, dif_pos h]
      by_cases hd : goesDown (fetch ((lo + hi) / 2)) = true
      · rw [if_pos hd]
        exact ih fetch K lo _ (by omega) h1 ((h3 _ (by omega) (by omega)).mp hd)
          (fun i a b => h3 i a (by omega))
      · rw [if_neg hd]
        have hK : ¬ K ≤ (lo + hi) / 2 := fun hk => hd ((h3 _ (by omega) (by omega)).mpr hk)
        exact ih fetch K _ hi (by omega) (by omega) h2 (fun i a b => h3 i (by omega) b)
    · rw [binary_page_search_loop, dif_neg h]
      omega

theorem bps_loop_boundary (fetch : Nat → Resp) (K lo hi : Nat)
    (h1 : lo ≤ K) (h2 : K ≤ hi)
    (h3 : ∀ i, lo ≤ i → i < hi → (goesDown (fetch i) = true ↔ K ≤ i)) :
    binary_page_search_loop fetch lo hi = K :=
  bps_loop_boundary_aux (hi - lo) fetch K lo hi le_rfl h1 h2 h3

theorem bps_loop_bounds_aux (n : Nat) :
    ∀ (fetch : Nat → Resp) (lo hi : Nat), hi - lo ≤ n → lo ≤ hi →
    lo ≤ binary_page_search_loop fetch lo hi ∧ binary_page_search_loop fetch lo hi ≤ hi := by
  induction n with
  | zero =>
    intro fetch lo hi hn hle
    rw [binary_page_search_loop, dif_neg (by omega)]
    omega
  | succ n ih =>
    intro fetch lo hi hn hle
    by_cases h : lo < hi
    · rw [binary_page_search_loop, dif_pos h]
      by_cases hd : goesDown (fetch ((lo + hi) / 2)) = true
      · rw [if_pos hd]
        have := ih fetch lo ((lo + hi) / 2) (by omega) (by omega)
        omega
      · rw [if_neg hd]
        have := ih fetch ((lo + hi) / 2 + 1) hi (by omega) (by omega)
        omega
    · rw [binary_page_search_loop, dif_neg h]
      omega

theorem bps_loop_bounds (fetch : Nat → Resp) (lo hi : Nat) (hle : lo ≤ hi) :
    lo ≤ binary_page_search_loop fetch lo hi ∧ binary_page_search_loop fetch lo hi ≤ hi :=
  bps_loop_bounds_aux (hi - lo) fetch lo hi le_rfl hle

theorem bps_probes_loop_mem_aux (n : Nat) :
    ∀ (fetch : Nat → Resp) (lo hi x : Nat), hi - lo ≤ n →
    x ∈ bps_probes_loop fetch lo hi → lo ≤ x ∧ x < hi := by
  induction n with
  | zero =>
    intro fetch lo hi x hn hx
    rw [bps_probes_loop] at hx
    by_cases h : lo < hi
    · omega
    · rw [dif_neg h] at hx
      simp at hx
  | succ n ih =>
    intro fetch lo hi x hn hx
    by_cases h : lo < hi
    · rw [bps_probes_loop, dif_pos h] at hx
      rcases List.mem_cons.mp hx with h1 | h1
      · omega
      · by_cases hd : goesDown (fetch ((lo + hi) / 2)) = true
        · rw [if_pos hd] at h1
          have := ih fetch lo ((lo + hi) / 2) x (by omega) h1
          omega
        · rw [if_neg hd] at h1
          have := ih fetch ((lo + hi) / 2 + 1) hi x (by omega) h1
          omega
    · rw [bps_probes_loop, dif_neg h] at hx
      simp at hx

theorem bps_probes_loop_mem (fetch : Nat → Resp) (lo hi x : Nat)
    (hx : x ∈ bps_probes_loop fetch lo hi) : lo ≤ x ∧ x < hi :=
  bps_probes_loop_mem_aux (hi - lo) fetch lo hi x le_rfl hx

theorem bps_probes_loop_nodup_aux (n : Nat) :
    ∀ (fetch : Nat → Resp) (lo hi : Nat), hi - lo ≤ n →
    (bps_probes_loop fetch lo hi).Pairwise (· ≠ ·) := by
  induction n with
  | zero =>
    intro fetch lo hi hn
    rw [bps_probes_loop]
    by_cases h : lo < hi
    · omega
    · rw [dif_neg h]
      simp
  | succ n ih =>
    intro fetch lo hi hn
    by_cases h : lo < hi
    · rw [bps_probes_loop, dif_pos h]
      by_cases hd : goesDown (fetch ((lo + hi) / 2)) = true
      · rw [if_pos hd]
        refine List.pairwise_cons.mpr ⟨?_, ih fetch lo ((lo + hi) / 2) (by omega)⟩
        intro x hx
        have := bps_probes_loop_mem fetch lo ((lo + hi) / 2) x hx
        omega
      · rw [if_neg hd]
        refine List.pairwise_cons.mpr ⟨?_, ih fetch ((lo + hi) / 2 + 1) hi (by omega)⟩
        intro x hx
        have := bps_probes_loop_mem fetch ((lo + hi) / 2 + 1) hi x hx
        omega
    · rw [bps_probes_loop, dif_neg h]
      simp

theorem bps_probes_loop_nodup (fetch : Nat → Resp) (lo hi : Nat) :
    (bps_probes_loop fetch lo hi).Pairwise (· ≠ ·) :=
  bps_probes_loop_nodup_aux (hi - lo) fetch lo hi le_rfl

/-- C1: for every total-page count `K` with `0 ≤ K < 2^20`, if the remote
source answers every probe of page index `i` with HTTP 200 and a non-empty
record set when `i < K`, and HTTP 200 with an empty record set when `i ≥ K`,
then `binary_page_search` returns exactly `K`. -/
theorem binary_page_search_returns_boundary (fetch : Nat → Resp) (K : Nat)
    (hK : K < 2 ^ 20)
    (hstatus : ∀ i, (fetch i).status = 200)
    (hlt : ∀ i, i < K → (fetch i).response ≠ [])
    (hge : ∀ i, K ≤ i → (fetch i).response = []) :
    binary_page_search fetch = K := by
  unfold binary_page_search
  apply bps_loop_boundary fetch K 0 (2 ^ 20) (Nat.zero_le K) (le_of_lt hK)
  intro i h0 h2
  rw [goesDown_iff]
  constructor
  · rintro ⟨-, hresp⟩
    by_contra hKi
    exact hlt i (by omega) hresp
  · intro hKi
    exact ⟨hstatus i, hge i hKi⟩

/-- Witness for C1 at `K = 3`: the boundary-at-3 simulated source makes
`binary_page_search` return 3. -/
theorem binary_page_search_returns_boundary_witness :
    3 < 2 ^ 20 ∧ binary_page_search (boundaryFetch 3) = 3 := by
  refine ⟨by norm_num, ?_⟩
  apply binary_page_search_returns_boundary (boundaryFetch 3) 3 (by norm_num)
  · intro i
    by_cases h : i < 3 <;> simp [boundaryFetch, h]
  · intro i h
    simp [boundaryFetch, h]
  · intro i h
    have h3 : ¬ i < 3 := by omega
    simp [boundaryFetch, h3]

/-- Counterexample to C2: on the simulated source `mixedFetch` (empty at
page 0 and from page 524288 on, non-empty in between) the sequence of page
indices probed by `binary_page_search` is not monotonically increasing
(the second probe, 262144, is below the first, 524288), and the returned
value 524288 is not the first index whose fetch returns an empty record
set (page 0 already returns an empty record set). -/
theorem bps_probes_not_monotone_counterexample :
    ¬ List.Chain' (fun a b => a ≤ b) (bps_probes mixedFetch) ∧
    binary_page_search mixedFetch = 524288 ∧
    (mixedFetch 0).response = [] ∧ (0 : Nat) < 524288 := by
  refine ⟨?_, ?_, by simp [mixedFetch], by norm_num⟩
  · simp [bps_probes, bps_probes_loop, mixedFetch, goesDown]
  · simp [binary_page_search, binary_page_search_loop, mixedFetch, goesDown]

/-- C2 (amended): the page indices probed by `binary_page_search` are
pairwise distinct and all lie in the initial range `[0, 2^20)` — but they
are not monotonically increasing in general. When the probe responses are
monotone — every probe answers HTTP 200 and there is a boundary `K ≤ 2^20`
with the record set empty exactly for indices `≥ K` — the value returned is
`K`, the first index whose fetch returns an empty record set. -/
theorem bps_probes_distinct_and_boundary (fetch : Nat → Resp) (K : Nat) :
    (bps_probes fetch).Pairwise (· ≠ ·) ∧
    (∀ x ∈ bps_probes fetch, x < 2 ^ 20) ∧
    (K ≤ 2 ^ 20 → (∀ i, (fetch i).status = 200) →
      (∀ i, ((fetch i).response = [] ↔ K ≤ i)) →
      binary_page_search fetch = K ∧ ∀ j, j < K → (fetch j).response ≠ []) := by
  refine ⟨bps_probes_loop_nodup fetch 0 (2 ^ 20), ?_, ?_⟩
  · intro x hx
    exact (bps_probes_loop_mem fetch 0 (2 ^ 20) x hx).2
  · intro hK hstatus hiff
    constructor
    · unfold binary_page_search
      apply bps_loop_boundary fetch K 0 (2 ^ 20) (Nat.zero_le K) hK
      intro i h0 h2
      rw [goesDown_iff]
      constructor
      · rintro ⟨-, hresp⟩
        exact (hiff i).mp hresp
      · intro hKi
        exact ⟨hstatus i, (hiff i).mpr hKi⟩
    · intro j hj hresp
      have := (hiff j).mp hresp
      omega

/-- Witness for the amended C2 at the boundary-at-5 simulated source. -/
theorem bps_probes_distinct_and_boundary_witness :
    (bps_probes (boundaryFetch 5)).Pairwise (· ≠ ·) ∧
    binary_page_search (boundaryFetch 5) = 5 := by
  refine ⟨(bps_probes_distinct_and_boundary (boundaryFetch 5) 5).1, ?_⟩
  refine ((bps_probes_distinct_and_boundary (boundaryFetch 5) 5).2.2 (by norm_num) ?_ ?_).1
  · intro i
    by_cases h : i < 5 <;> simp [boundaryFetch, h]
  · intro i
    constructor
    · intro hresp
      by_contra hlt
      push_neg at hlt
      simp [boundaryFetch, hlt] at hresp
    · intro h5
      have h : ¬ i < 5 := by omega
      simp [boundaryFetch, h]

/-- C7: a probe whose fetch fails (status ≠ 200) is treated exactly like a
probe returning a non-empty page: the branch condition is false, the lower
bound advances past the midpoint (`low = mid + 1`), and the search continues
upward on the upper half. -/
theorem binary_page_search_failure_as_nonempty (fetch : Nat → Resp)
    (lo hi : Nat) (h : lo < hi)
    (hmid : (fetch ((lo + hi) / 2)).status ≠ 200 ∨ (fetch ((lo + hi) / 2)).response ≠ []) :
    goesDown (fetch ((lo + hi) / 2)) = false ∧
    binary_page_search_loop fetch lo hi =
      binary_page_search_loop fetch ((lo + hi) / 2 + 1) hi := by
  have hgd : goesDown (fetch ((lo + hi) / 2)) = false := by
    rcases hmid with hs | hr
    · simp [goesDown]
      intro h200
      exact absurd h200 hs
    · simp [goesDown, List.isEmpty_iff]
      intro _
      exact hr
  refine ⟨hgd, ?_⟩
  rw [binary_page_search_loop, dif_pos h, if_neg (by simp [hgd])]

/-- Witness for C7: with the always-failing source and bounds `[0, 2)` the
midpoint probe at page 1 fails, and the loop recurses on `[2, 2)`. -/
theorem binary_page_search_failure_as_nonempty_witness :
    (0 : Nat) < 2 ∧ (failFetch ((0 + 2) / 2)).status ≠ 200 ∧
    goesDown (failFetch ((0 + 2) / 2)) = false ∧
    binary_page_search_loop failFetch 0 2 =
      binary_page_search_loop failFetch ((0 + 2) / 2 + 1) 2 := by
  have h := binary_page_search_failure_as_nonempty failFetch 0 2 (by norm_num)
    (Or.inl (by simp [failFetch]))
  exact ⟨by norm_num, by simp [failFetch], h.1, h.2⟩

/-- C8: the bisection always terminates — the interval `[low, high)` starts
at `[0, 2^20)`, its length strictly shrinks on both branches of every
iteration, the loop ends when `low = high` returning that common value, the
result stays inside the initial bounds, and in particular
`binary_page_search` never returns more than `2^20`. -/
theorem binary_page_search_terminates_bounded (fetch : Nat → Resp) (lo hi : Nat) :
    (lo ≤ hi → lo ≤ binary_page_search_loop fetch lo hi ∧
      binary_page_search_loop fetch lo hi ≤ hi) ∧
    (lo < hi → (lo + hi) / 2 - lo < hi - lo ∧ hi - ((lo + hi) / 2 + 1) < hi - lo) ∧
    binary_page_search_loop fetch hi hi = hi ∧
    binary_page_search fetch ≤ 2 ^ 20 := by
  refine ⟨fun hle => bps_loop_bounds fetch lo hi hle, fun hlt => by omega, ?_, ?_⟩
  · rw [binary_page_search_loop, dif_neg (lt_irrefl hi)]
  · exact (bps_loop_bounds fetch 0 (2 ^ 20) (Nat.zero_le _)).2

/-- Witness for C8 with the always-failing source on `[0, 2)`. -/
theorem binary_page_search_terminates_bounded_witness :
    (0 : Nat) ≤ 2 ∧
    (0 ≤ binary_page_search_loop failFetch 0 2 ∧ binary_page_search_loop failFetch 0 2 ≤ 2) ∧
    binary_page_search failFetch ≤ 2 ^ 20 :=
  ⟨by norm_num, (binary_page_search_terminates_bounded failFetch 0 2).1 (by norm_num),
   (binary_page_search_terminates_bounded failFetch 0 2).2.2.2⟩

theorem longRowOf_canonical (r : LongRow) :
    longRowOf ["link_id", "field_name", "value"] [r.link_id, r.field_name, r.value] = some r :=
  rfl

theorem filterMap_longRowOf (rows : List LongRow) :
    (longTable rows).rows.filterMap (longRowOf (longTable rows).header) = rows := by
  induction rows with
  | nil => rfl
  | cons r t ih =>
    simp only [longTable, List.map_cons, List.filterMap_cons] at ih ⊢
    rw [longRowOf_canonical]
    simpa using ih

theorem transform_data_longTable (rows : List LongRow) :
    transform_data (longTable rows) = some (pivotTable rows) := by
  rw [transform_data, if_pos (by simp [longTable])]
  rw [filterMap_longRowOf]

theorem mem_pivotHeader (rows : List LongRow) (fn : String) :
    fn ∈ (pivotTable rows).header ↔ fn = "link_id" ∨ fn ∈ rows.map (·.field_name) := by
  simp [pivotTable, pivotFieldNames, List.mem_dedup]

theorem pivotCell_first_seen (pre post : List LongRow) (r : LongRow)
    (hpre : ∀ q ∈ pre, ¬(q.link_id = r.link_id ∧ q.field_name = r.field_name)) :
    pivotCell (pre ++ r :: post) r.link_id r.field_name = some r.value := by
  induction pre with
  | nil =>
    unfold pivotCell
    rw [List.nil_append, List.find?_cons_of_pos _ (by simp)]
    rfl
  | cons q t ih =>
    have hq := hpre q (List.mem_cons_self q t)
    have hcond : (q.link_id == r.link_id && q.field_name == r.field_name) = false := by
      by_cases h1 : q.link_id = r.link_id
      · by_cases h2 : q.field_name = r.field_name
        · exact absurd ⟨h1, h2⟩ hq
        · simp [h2]
      · simp [h1]
    unfold pivotCell at ih ⊢
    rw [List.cons_append, List.find?_cons_of_neg _ (by simp [hcond])]
    exact ih (fun p hp => hpre p (List.mem_cons_of_mem q hp))

theorem pivotTable_row_ids (rows : List LongRow) :
    (pivotTable rows).rows.map (fun row => row.head?) = (pivotIds rows).map some ∧
    (pivotIds rows).Nodup := by
  constructor
  · simp [pivotTable, List.map_map, Function.comp]
  · exact List.nodup_dedup _

/-- Counterexample to C3: the active `transform_data` applies no attribute
allow-list. On the one-row input with attribute name `Foo` — which is not in
the allow-list `['Partner', 'Office_Responsible', 'Department']` of the
shadowed first definition — the output table has a `Foo` column. -/
theorem transform_data_allowlist_counterexample :
    transform_data (longTable fooRows) = some (pivotTable fooRows) ∧
    "Foo" ∈ (pivotTable fooRows).header ∧
    "Foo" ∉ desired_columns := by
  refine ⟨by decide, by decide, by decide⟩

/-- C3 (amended): the Profile Reshaper that actually runs (the second
`transform_data`, which shadows the allow-listed first one) produces one
column per distinct attribute name present in the input — whatever that name
is, with no allow-list filtering — plus the `link_id` key column; attribute
names entirely absent from the input yield no column. -/
theorem transform_data_columns_from_input (rows : List LongRow) (fn : String) :
    (fn ∈ (pivotTable rows).header ↔ fn = "link_id" ∨ fn ∈ rows.map (·.field_name)) ∧
    (rows ≠ [] → transform_data (longTable rows) = some (pivotTable rows)) :=
  ⟨mem_pivotHeader rows fn, fun _ => transform_data_longTable rows⟩

/-- Witness for the amended C3 on the `Foo` input. -/
theorem transform_data_columns_from_input_witness :
    fooRows ≠ [] ∧
    transform_data (longTable fooRows) = some (pivotTable fooRows) ∧
    ("Foo" ∈ (pivotTable fooRows).header ↔
      "Foo" = "link_id" ∨ "Foo" ∈ fooRows.map (·.field_name)) :=
  ⟨by decide, (transform_data_columns_from_input fooRows "Foo").2 (by decide),
   (transform_data_columns_from_input fooRows "Foo").1⟩

/-- C5: with duplicate `(entity id, attribute name)` pairs the pivot keeps
the first value seen in input order (`aggfunc='first'`): whenever the input
splits as `pre ++ r :: post` with no row of `pre` matching `r`'s pair, the
cell for that pair is `r`'s value; on
`[(1, Partner, A), (1, Partner, Z)]` the Partner cell of entity 1 is `A`;
and the output has exactly one row per distinct entity id. -/
theorem pivot_first_seen_wins (pre post rows : List LongRow) (r : LongRow) :
    ((∀ q ∈ pre, ¬(q.link_id = r.link_id ∧ q.field_name = r.field_name)) →
      pivotCell (pre ++ r :: post) r.link_id r.field_name = some r.value) ∧
    pivotCell [⟨"1", "Partner", "A"⟩, ⟨"1", "Partner", "Z"⟩] "1" "Partner" = some "A" ∧
    ((pivotTable rows).rows.map (fun row => row.head?) = (pivotIds rows).map some ∧
      (pivotIds rows).Nodup) :=
  ⟨fun hpre => pivotCell_first_seen pre post r hpre, by decide, pivotTable_row_ids rows⟩

/-- Witness for C5: the first-seen cell on a concrete three-row input with a
duplicate pair. -/
theorem pivot_first_seen_wins_witness :
    (∀ q ∈ ([⟨"2", "Partner", "B"⟩] : List LongRow),
      ¬(q.link_id = (⟨"1", "Partner", "A"⟩ : LongRow).link_id ∧
        q.field_name = (⟨"1", "Partner", "A"⟩ : LongRow).field_name)) ∧
    pivotCell ([⟨"2", "Partner", "B"⟩] ++ ⟨"1", "Partner", "A"⟩ :: [⟨"1", "Partner", "Z"⟩])
      "1" "Partner" = some "A" :=
  ⟨by decide,
   (pivot_first_seen_wins [⟨"2", "Partner", "B"⟩] [⟨"1", "Partner", "Z"⟩]
      [] ⟨"1", "Partner", "A"⟩).1 (by decide)⟩

/-- C10: the active `transform_data` writes its pivoted output back over the
merged input file, destroying the long-format data. On any nonempty Profile
Row input whose attribute names do not include the literal string
`field_name`, the first invocation returns the pivot and overwrites the file
with it; the second invocation on that same file no longer finds the
`field_name` (and `value`) columns, fails into the catch-all handler,
returns `None`, and leaves the pivoted file unchanged. -/
theorem transform_data_overwrite_second_run (rows : List LongRow)
    (_hne : rows ≠ []) (hfn : "field_name" ∉ rows.map (·.field_name)) :
    transform_data_run (longTable rows) = (some (pivotTable rows), pivotTable rows) ∧
    transform_data_run (pivotTable rows) = (none, pivotTable rows) := by
  constructor
  · simp [transform_data_run, transform_data_longTable rows]
  · have hnone : transform_data (pivotTable rows) = none := by
      rw [transform_data, if_neg]
      rintro ⟨-, h2, -⟩
      rcases (mem_pivotHeader rows "field_name").mp h2 with h | h
      · exact absurd h (by decide)
      · exact hfn h
    simp [transform_data_run, hnone]

/-- Witness for C10 on a one-row Partner input. -/
theorem transform_data_overwrite_second_run_witness :
    ([⟨"1", "Partner", "A"⟩] : List LongRow) ≠ [] ∧
    "field_name" ∉ ([⟨"1", "Partner", "A"⟩] : List LongRow).map (·.field_name) ∧
    transform_data_run (pivotTable [⟨"1", "Partner", "A"⟩]) =
      (none, pivotTable [⟨"1", "Partner", "A"⟩]) :=
  ⟨by decide, by decide,
   (transform_data_overwrite_second_run [⟨"1", "Partner", "A"⟩] (by decide) (by decide)).2⟩

/-- C6: the primary path computes total pages as the ceiling of
`total / 100` via `(total + 99) // 100`: the result is the least `m` with
`total ≤ 100 * m`; in particular 250 records give 3 pages, 0 records give
0 pages and 100 records give 1 page. -/
theorem total_pages_ceil (n m : Nat) :
    total_pages n = (n + 99) / 100 ∧
    n ≤ 100 * total_pages n ∧
    (n ≤ 100 * m → total_pages n ≤ m) ∧
    total_pages 250 = 3 ∧ total_pages 0 = 0 ∧ total_pages 100 = 1 := by
  unfold total_pages
  refine ⟨rfl, by omega, fun h => by omega, by norm_num, by norm_num, by norm_num⟩

/-- Witness for C6 at `total = 250`, `m = 3`. -/
theorem total_pages_ceil_witness :
    250 ≤ 100 * 3 ∧ total_pages 250 ≤ 3 ∧ total_pages 250 = 3 :=
  ⟨by norm_num, (total_pages_ceil 250 3).2.2.1 (by norm_num),
   (total_pages_ceil 250 3).2.2.2.1⟩

theorem colNums_eq_none {cells : List Val} (h : ∃ v ∈ cells, valNum? v = none) :
    colNums? cells = none := by
  induction cells with
  | nil => simp at h
  | cons a t ih =>
    rcases h with ⟨v, hv, hnone⟩
    rcases List.mem_cons.mp hv with rfl | hv'
    · simp [colNums?, hnone]
    · have ht := ih ⟨v, hv', hnone⟩
      cases hva : valNum? a <;> simp [colNums?, hva, ht]

/-- C9: the date conversion acts per column and atomically: every column
keeps its name; a column whose name does not contain `date` is untouched;
a `date`-named column is either replaced wholesale — every cell numeric,
each Unix-epoch-second value becoming its `YYYY-MM-DD` string — or, when
any cell is non-numeric (so `pd.to_datetime` fails and the error is caught
and logged), left exactly in its original form; the conversion is a total
function and never aborts the run. -/
theorem convert_date_columns_atomic (cols : List NamedCol) (c : NamedCol) (hc : c ∈ cols) :
    convert_columns_to_datetime cols = cols.map convertNamedCol ∧
    convertNamedCol c ∈ convert_columns_to_datetime cols ∧
    (convertNamedCol c).name = c.name ∧
    (containsDate (lowerList c.name.toList) = false → convertNamedCol c = c) ∧
    ((convertNamedCol c).cells = c.cells ∨
      ∃ ns, colNums? c.cells = some ns ∧
        (convertNamedCol c).cells = ns.map (fun n => Val.str (epochToDateStr n))) ∧
    ((∃ v ∈ c.cells, valNum? v = none) → (convertNamedCol c).cells = c.cells) := by
  refine ⟨rfl, List.mem_map_of_mem _ hc, ?_, ?_, ?_, ?_⟩
  · unfold convertNamedCol
    split <;> rfl
  · intro h
    unfold convertNamedCol
    rw [h]
    simp
  · unfold convertNamedCol
    split
    · cases hm : colNums? c.cells with
      | none =>
        left
        simp [convertDateCol, hm]
      | some ns =>
        right
        exact ⟨ns, rfl, by simp [convertDateCol, hm]⟩
    · left
      rfl
  · rintro ⟨v, hv, hnone⟩
    have hm := colNums_eq_none ⟨v, hv, hnone⟩
    unfold convertNamedCol
    split
    · simp [convertDateCol, hm]
    · rfl

/-- Witness for C9: a numeric `start_date` column converts wholesale to
date strings, and a `bad_date` column with a non-numeric cell is left in
its original form. -/
theorem convert_date_columns_atomic_witness :
    (⟨"start_date", [Val.num 0, Val.num 86400]⟩ : NamedCol) ∈
      ([⟨"start_date", [Val.num 0, Val.num 86400]⟩,
        ⟨"bad_date", [Val.num 0, Val.str "oops"]⟩] : List NamedCol) ∧
    (convertNamedCol ⟨"start_date", [Val.num 0, Val.num 86400]⟩).name = "start_date" ∧
    convertNamedCol ⟨"start_date", [Val.num 0, Val.num 86400]⟩ =
      ⟨"start_date", [Val.str "1970-01-01", Val.str "1970-01-02"]⟩ ∧
    convertNamedCol ⟨"bad_date", [Val.num 0, Val.str "oops"]⟩ =
      ⟨"bad_date", [Val.num 0, Val.str "oops"]⟩ :=
  ⟨by decide,
   (convert_date_columns_atomic
      [⟨"start_date", [Val.num 0, Val.num 86400]⟩, ⟨"bad_date", [Val.num 0, Val.str "oops"]⟩]
      ⟨"start_date", [Val.num 0, Val.num 86400]⟩ (by decide)).2.2.1,
   by decide, by decide⟩

/-- C4: the process exit status is non-zero exactly when an uncaught error
occurs — an exception escaping the main body into the top-level
`except Exception` handler, which exits with status 1 — and zero otherwise;
token-acquisition failure (non-200 response or falsy `access_token`) halts
the run immediately, before any page is fetched, via a handled `exit()`
(status 0, not an uncaught error). -/
theorem script_exit_code_spec (e : RunEnv) :
    (script_exit_code e ≠ 0 ↔ uncaught_error e = true) ∧
    ((e.token_status ≠ 200 ∨ falsyStr e.access_token = true) →
      script_halts_at_token e = true ∧ script_exit_code e = 0) ∧
    (uncaught_error e = true → script_exit_code e = 1) ∧
    (uncaught_error e = false → script_exit_code e = 0) := by
  obtain ⟨ts, tok, br⟩ := e
  by_cases h1 : ts = 200 <;> by_cases h2 : falsyStr tok = true <;> cases br <;>
    simp_all [script_exit_code, uncaught_error, token_acquired, script_halts_at_token]

/-- Witness for C4: a 500 token response halts the run with exit status 0. -/
theorem script_exit_code_spec_witness :
    ((⟨500, none, false⟩ : RunEnv).token_status ≠ 200 ∨
      falsyStr (⟨500, none, false⟩ : RunEnv).access_token = true) ∧
    script_halts_at_token ⟨500, none, false⟩ = true ∧
    script_exit_code ⟨500, none, false⟩ = 0 :=
  ⟨Or.inl (by decide),
   (script_exit_code_spec ⟨500, none, false⟩).2.1 (Or.inl (by decide))⟩
